import Mathlib

/-!
Shallow embedding of the persistence layer in
`src/services/storage_service.py` (functions `save_column_mappings`,
`get_existing_mappings`, `update_column_mappings`, `save_financial_data`,
`get_user_financial_data`) together with the backend-availability behaviour
of `src/services/auth_service.py` (`get_db`).

Modelling decisions, all taken from the source:
* Python dictionaries become insertion-ordered association lists
  (`setKey` assigns preserving the position of an existing key,
  appending a fresh key at the end; `getKey` looks a key up).
* `st.session_state` (the ephemeral, session-scoped store shared by all
  demo identifiers) becomes `SessionState`; Firestore becomes
  `RemoteState`, a map from user id to that user's `mappings` and
  `financial_data` sub-collections.  Firestore auto-generated document
  ids are modelled by a fresh-id counter.
* `datetime.now()` becomes an explicit `now : Nat` (seconds); the two
  formatting functions (`isoformat`, `strftime` to second precision) are
  abstract injective encodings of that second count.
* `get_db()` returning `None` and exceptions raised by the Firestore
  client inside the `try:` blocks are modelled by a per-call
  `DbStatus` (`ok`, `unavailable`, `throws`); every gateway function is
  total, mirroring the fact that the Python code catches all backend
  exceptions and converts them into its declared failure result.
* A Firestore `doc.reference.update(d)` merges the fields of `d` into the
  document, leaving fields absent from `d` unchanged; `add(d)` inserts a
  new document under a fresh auto id.
* A demo-path financial record stores only `type`, `data`, `created_at`
  (no `row_count` key); the remote path additionally stores `row_count`.
  Both are modelled by `FinRecord` with `row_count : Option Nat`, where
  `none` means the dictionary key is absent.
-/

/-- A column-mapping dictionary (Python `dict[str, str]`). -/
abbrev Mapping := List (String × String)

/-- One row of `data_df.to_dict(orient="records")`: a flat record. -/
abbrev Row := List (String × String)

/-- Python-dict assignment on an association list: an existing key keeps
its position and gets the new value, a fresh key is appended. -/
def setKey {α : Type} (l : List (String × α)) (k : String) (v : α) :
    List (String × α) :=
  if l.any (fun p => p.1 == k) then
    l.map (fun p => if p.1 == k then (k, v) else p)
  else
    l ++ [(k, v)]

/-- Python-dict lookup on an association list. -/
def getKey {α : Type} (l : List (String × α)) (k : String) : Option α :=
  (l.find? (fun p => p.1 == k)).map Prod.snd

/-- The demo-identifier prefix (`"demo_user_"` in the source). -/
def demoMarker : String := "demo_user_"

/-- Embedding of Python `str.startswith`: a prefix test on the character
sequence of the string (equivalent to `String.startsWith`, but stated on
the character list so that concrete instances evaluate by `decide`). -/
def strStartsWith (s pre : String) : Bool := pre.data.isPrefixOf s.data

/-- Embedding of `datetime.now().isoformat()`, abstracted to an injective encoding of
the current second count. -/
def isoformat (t : Nat) : String := toString t

/-- Embedding of `datetime.now().strftime('%Y%m%d%H%M%S')`: the current timestamp at
second precision, abstracted to an injective encoding of the second
count. -/
def fmtYmdHMS (t : Nat) : String := toString t

/-- The underscore separating `data_type` from the timestamp in the demo
financial-data id. -/
def idSep : String := "_"

/-- One entry of `st.session_state.saved_mappings[file_id]`:
`{"mappings": ..., "last_used": ...}` (demo path stores no
`created_at`). -/
structure SessionMapping where
  mappings : Mapping
  last_used : String
deriving DecidableEq, Repr

/-- A document of the remote `users/{uid}/mappings` collection.
`created_at` / `updated_at` are optional because `save_column_mappings`
writes only `created_at` while the create branch of
`update_column_mappings` writes only `updated_at`. -/
structure MappingDoc where
  file_name : String
  mappings : Mapping
  created_at : Option String
  updated_at : Option String
  last_used : String
deriving DecidableEq, Repr

/-- A financial-data record as returned by `get_user_financial_data`.
`row_count = none` models the absence of the `row_count` key (the demo
path of `save_financial_data` does not store one). -/
structure FinRecord where
  type : String
  data : List Row
  created_at : String
  row_count : Option Nat
deriving DecidableEq, Repr

/-- The session-scoped ephemeral store (`st.session_state`), shared by
every identifier routed to the demo path. -/
structure SessionState where
  saved_mappings : List (String × SessionMapping)
  saved_financial_data : List (String × FinRecord)
deriving DecidableEq, Repr

/-- The two sub-collections of `users/{uid}` used by the storage
service, keyed by document id. -/
structure RemoteUser where
  mappings : List (String × MappingDoc)
  financial_data : List (String × FinRecord)
deriving DecidableEq, Repr

/-- The remote document store: per-user documents plus the counter
generating fresh auto ids. -/
structure RemoteState where
  users : List (String × RemoteUser)
  nextId : Nat
deriving DecidableEq, Repr

/-- The whole mutable state the storage service touches. -/
structure StorageState where
  session : SessionState
  remote : RemoteState
deriving DecidableEq, Repr

/-- Per-call backend behaviour: `get_db()` returned `None`
(`unavailable`), the Firestore call inside the `try:` raised
(`throws`), or the call succeeded (`ok`). -/
inductive DbStatus where
  | ok
  | unavailable
  | throws
deriving DecidableEq, Repr

def emptySession : SessionState := ⟨[], []⟩

def emptyRemote : RemoteState := ⟨[], 0⟩

def emptyState : StorageState := ⟨emptySession, emptyRemote⟩

/-- An absent user document: Firestore sub-collections spring into
existence on first write, so reading a missing user yields empty
collections. -/
def emptyUser : RemoteUser := ⟨[], []⟩

def getUser (r : RemoteState) (uid : String) : RemoteUser :=
  (getKey r.users uid).getD emptyUser

def setUser (r : RemoteState) (uid : String) (u : RemoteUser) : RemoteState :=
  { r with users := setKey r.users uid u }

/-- The auto id generated for the `n`-th `add`. -/
def autoId (n : Nat) : String := toString n

/-- Firestore `users/{uid}/mappings.add(doc)`. -/
def addMappingDoc (r : RemoteState) (uid : String) (d : MappingDoc) :
    RemoteState :=
  let u := getUser r uid
  { setUser r uid { u with mappings := u.mappings ++ [(autoId r.nextId, d)] }
      with nextId := r.nextId + 1 }

/-- Firestore `users/{uid}/financial_data.add(doc)`; returns the generated id. -/
def addFinDoc (r : RemoteState) (uid : String) (d : FinRecord) :
    String × RemoteState :=
  let u := getUser r uid
  (autoId r.nextId,
   { setUser r uid
       { u with financial_data := u.financial_data ++ [(autoId r.nextId, d)] }
       with nextId := r.nextId + 1 })

/-- Embedding of `not user_id or user_id.startswith("demo_user_")`: the condition that
routes the write operations to the session store. -/
def isDemoPath (uid : String) : Bool :=
  uid.isEmpty || strStartsWith uid demoMarker

/-- Session-state dictionary assignment
`st.session_state.saved_mappings[file_id] = sm`. -/
def putSessionMapping (s : StorageState) (file_id : String)
    (sm : SessionMapping) : StorageState :=
  let sess : SessionState :=
    { s.session with
        saved_mappings := setKey s.session.saved_mappings file_id sm }
  { s with session := sess }

/-- Session-state dictionary assignment
`st.session_state.saved_financial_data[data_id] = rec`. -/
def putSessionFin (s : StorageState) (data_id : String)
    (rec : FinRecord) : StorageState :=
  let sess : SessionState :=
    { s.session with
        saved_financial_data :=
          setKey s.session.saved_financial_data data_id rec }
  { s with session := sess }

/-- The document dictionary built by `save_column_mappings` before the
`add` call (fields `file_name`, `mappings`, `created_at`, `last_used`). -/
def saveMappingDoc (file_id : String) (mappings : Mapping) (now : Nat) :
    MappingDoc :=
  { file_name := file_id, mappings := mappings,
    created_at := some (isoformat now), updated_at := none,
    last_used := isoformat now }

/-- The document dictionary built by `update_column_mappings` (fields
`file_name`, `mappings`, `updated_at`, `last_used`), as stored when no
prior document matches and a new one is `add`ed. -/
def updateMappingDoc (file_id : String) (mappings : Mapping) (now : Nat) :
    MappingDoc :=
  { file_name := file_id, mappings := mappings,
    created_at := none, updated_at := some (isoformat now),
    last_used := isoformat now }

/-- The session financial record stored by the demo path of
`save_financial_data`: keys `type`, `data`, `created_at` only (no
`row_count`). -/
def demoFinRecord (data_type : String) (rows : List Row) (now : Nat) :
    FinRecord :=
  { type := data_type, data := rows,
    created_at := isoformat now, row_count := none }

/-- The Firestore financial document stored by the remote path of
`save_financial_data`: keys `type`, `data`, `created_at`, `row_count`. -/
def remoteFinRecord (data_type : String) (rows : List Row) (now : Nat) :
    FinRecord :=
  { type := data_type, data := rows,
    created_at := isoformat now, row_count := some rows.length }

/-- The record id derived by the demo path of `save_financial_data`:
`f"{data_type}_{datetime.now().strftime('%Y%m%d%H%M%S')}"`. -/
def demoFinId (data_type : String) (now : Nat) : String :=
  data_type ++ idSep ++ fmtYmdHMS now

/-- Embedding of `save_column_mappings(user_id, file_id, mappings)` from
`src/services/storage_service.py`. -/
def save_column_mappings (s : StorageState) (db : DbStatus) (now : Nat)
    (user_id file_id : String) (mappings : Mapping) : Bool × StorageState :=
  if isDemoPath user_id then
    (true, putSessionMapping s file_id ⟨mappings, isoformat now⟩)
  else
    match db with
    | .unavailable => (false, s)
    | .throws => (false, s)
    | .ok =>
        let r2 := addMappingDoc s.remote user_id (saveMappingDoc file_id mappings now)
        (true, { s with remote := r2 })

/-- Embedding of a `doc.reference.update` call touching `last_used`, applied to the document with
id `docId` of `users/{uid}/mappings`: a field merge touching only
`last_used`. -/
def touchLastUsed (r : RemoteState) (uid docId : String) (t : String) :
    RemoteState :=
  let u := getUser r uid
  setUser r uid
    { u with mappings :=
        u.mappings.map (fun p =>
          if p.1 == docId then (p.1, { p.2 with last_used := t }) else p) }

/-- Embedding of `get_existing_mappings(user_id, file_name)` from
`src/services/storage_service.py`.  The remote branch takes the first
document matching the file name (the `limit(1)` query, modelled in
insertion order) and refreshes its `last_used` as a side effect. -/
def get_existing_mappings (s : StorageState) (db : DbStatus) (now : Nat)
    (user_id file_name : String) : Option Mapping × StorageState :=
  if user_id.isEmpty then
    (none, s)
  else if strStartsWith user_id demoMarker then
    match getKey s.session.saved_mappings file_name with
    | some sm => (some sm.mappings, s)
    | none => (none, s)
  else
    match db with
    | .unavailable => (none, s)
    | .throws => (none, s)
    | .ok =>
        match (getUser s.remote user_id).mappings.find?
            (fun p => p.2.file_name == file_name) with
        | none => (none, s)
        | some p =>
            (some p.2.mappings,
             { s with
                remote := touchLastUsed s.remote user_id p.1 (isoformat now) })

/-- Embedding of `update_column_mappings(user_id, file_id, updated_mappings)` from
`src/services/storage_service.py`.  The remote branch merges
`{file_name, mappings, updated_at, last_used}` into the first matching
document, or `add`s that dictionary as a new document when no match
exists. -/
def update_column_mappings (s : StorageState) (db : DbStatus) (now : Nat)
    (user_id file_id : String) (updated_mappings : Mapping) :
    Bool × StorageState :=
  if isDemoPath user_id then
    (true, putSessionMapping s file_id ⟨updated_mappings, isoformat now⟩)
  else
    match db with
    | .unavailable => (false, s)
    | .throws => (false, s)
    | .ok =>
        let u := getUser s.remote user_id
        match u.mappings.find? (fun p => p.2.file_name == file_id) with
        | some p =>
            let merged := fun (q : String × MappingDoc) =>
              if q.1 == p.1 then
                (q.1,
                 { file_name := file_id,
                   mappings := updated_mappings,
                   created_at := q.2.created_at,
                   updated_at := some (isoformat now),
                   last_used := isoformat now : MappingDoc })
              else q
            let u2 : RemoteUser := { u with mappings := u.mappings.map merged }
            (true, { s with remote := setUser s.remote user_id u2 })
        | none =>
            let r2 := addMappingDoc s.remote user_id
              (updateMappingDoc file_id updated_mappings now)
            (true, { s with remote := r2 })

/-- Embedding of `save_financial_data(user_id, data_type, data_df)` from
`src/services/storage_service.py`.  `rows` is
`data_df.to_dict(orient="records")`; the demo path derives the record id
from the data type and the second-precision timestamp and stores no
`row_count`; the remote path stores `row_count = len(data_df)` under a
backend-generated id. -/
def save_financial_data (s : StorageState) (db : DbStatus) (now : Nat)
    (user_id data_type : String) (rows : List Row) :
    (Bool × Option String) × StorageState :=
  if isDemoPath user_id then
    let data_id := demoFinId data_type now
    ((true, some data_id),
     putSessionFin s data_id (demoFinRecord data_type rows now))
  else
    match db with
    | .unavailable => ((false, none), s)
    | .throws => ((false, none), s)
    | .ok =>
        let r := addFinDoc s.remote user_id (remoteFinRecord data_type rows now)
        ((true, some r.1), { s with remote := r.2 })

/-- Embedding of `get_user_financial_data(user_id, data_type=None)` from
`src/services/storage_service.py`.  Pure read: it never mutates either
store, so only the result dictionary is returned.  A falsy `data_type`
(absent or the empty string) means no filter. -/
def get_user_financial_data (s : StorageState) (db : DbStatus)
    (user_id : String) (data_type : Option String) :
    List (String × FinRecord) :=
  if user_id.isEmpty then
    []
  else if strStartsWith user_id demoMarker then
    match data_type with
    | some dt =>
        if dt.isEmpty then s.session.saved_financial_data
        else s.session.saved_financial_data.filter (fun p => p.2.type == dt)
    | none => s.session.saved_financial_data
  else
    match db with
    | .unavailable => []
    | .throws => []
    | .ok =>
        match data_type with
        | some dt =>
            if dt.isEmpty then (getUser s.remote user_id).financial_data
            else
              (getUser s.remote user_id).financial_data.filter
                (fun p => p.2.type == dt)
        | none => (getUser s.remote user_id).financial_data

/-- Erase the `created_at`/`updated_at` bookkeeping fields of a mapping
document (the only fields on which the create branches of
`update_column_mappings` and `save_column_mappings` differ). -/
def eraseStamps (d : MappingDoc) : MappingDoc :=
  { d with created_at := none, updated_at := none }

def eraseStampsUser (u : RemoteUser) : RemoteUser :=
  { u with mappings := u.mappings.map (fun p => (p.1, eraseStamps p.2)) }

def eraseStampsRemote (r : RemoteState) : RemoteState :=
  { r with users := r.users.map (fun p => (p.1, eraseStampsUser p.2)) }

/-- Both directions of the per-call dispatch for a demo-prefixed id
`uid` and a non-demo nonempty id `uid'`: every operation invoked with
`uid` returns the same result over any two remote states and backend
statuses, produces the same session state, and passes the remote state
through untouched (it never reaches the remote backend); and the write
operations invoked with `uid'` leave the session store untouched. -/
def DemoDispatch (sess : SessionState) (rem rem' : RemoteState)
    (db db' : DbStatus) (t1 t2 : Nat) (uid uid' f : String) (m : Mapping)
    (dt : String) (rows : List Row) (odt : Option String)
    (s' : StorageState) : Prop :=
  (save_column_mappings ⟨sess, rem⟩ db t1 uid f m).1
      = (save_column_mappings ⟨sess, rem'⟩ db' t1 uid f m).1
  ∧ (save_column_mappings ⟨sess, rem⟩ db t1 uid f m).2.session
      = (save_column_mappings ⟨sess, rem'⟩ db' t1 uid f m).2.session
  ∧ (save_column_mappings ⟨sess, rem⟩ db t1 uid f m).2.remote = rem
  ∧ (get_existing_mappings ⟨sess, rem⟩ db t2 uid f).1
      = (get_existing_mappings ⟨sess, rem'⟩ db' t2 uid f).1
  ∧ (get_existing_mappings ⟨sess, rem⟩ db t2 uid f).2.remote = rem
  ∧ (update_column_mappings ⟨sess, rem⟩ db t1 uid f m).1
      = (update_column_mappings ⟨sess, rem'⟩ db' t1 uid f m).1
  ∧ (update_column_mappings ⟨sess, rem⟩ db t1 uid f m).2.session
      = (update_column_mappings ⟨sess, rem'⟩ db' t1 uid f m).2.session
  ∧ (update_column_mappings ⟨sess, rem⟩ db t1 uid f m).2.remote = rem
  ∧ (save_financial_data ⟨sess, rem⟩ db t1 uid dt rows).1
      = (save_financial_data ⟨sess, rem'⟩ db' t1 uid dt rows).1
  ∧ (save_financial_data ⟨sess, rem⟩ db t1 uid dt rows).2.session
      = (save_financial_data ⟨sess, rem'⟩ db' t1 uid dt rows).2.session
  ∧ (save_financial_data ⟨sess, rem⟩ db t1 uid dt rows).2.remote = rem
  ∧ get_user_financial_data ⟨sess, rem⟩ db uid odt
      = get_user_financial_data ⟨sess, rem'⟩ db' uid odt
  ∧ (save_column_mappings s' db t1 uid' f m).2.session = s'.session
  ∧ (update_column_mappings s' db t1 uid' f m).2.session = s'.session
  ∧ (save_financial_data s' db t1 uid' dt rows).2.session = s'.session

/-- No write invoked under user id `u` changes what any read invoked
under a different user id `v` returns (stated for every write/read pair
of the service). -/
def NoCrossUserRead (s : StorageState) (db db' : DbStatus) (t1 t2 : Nat)
    (u v f g dt : String) (m : Mapping) (rows : List Row)
    (odt : Option String) : Prop :=
  (get_existing_mappings (save_column_mappings s db t1 u f m).2
      db' t2 v g).1
    = (get_existing_mappings s db' t2 v g).1
  ∧ (get_existing_mappings (update_column_mappings s db t1 u f m).2
      db' t2 v g).1
    = (get_existing_mappings s db' t2 v g).1
  ∧ (get_existing_mappings (save_financial_data s db t1 u dt rows).2
      db' t2 v g).1
    = (get_existing_mappings s db' t2 v g).1
  ∧ get_user_financial_data (save_column_mappings s db t1 u f m).2
      db' v odt
    = get_user_financial_data s db' v odt
  ∧ get_user_financial_data (update_column_mappings s db t1 u f m).2
      db' v odt
    = get_user_financial_data s db' v odt
  ∧ get_user_financial_data (save_financial_data s db t1 u dt rows).2
      db' v odt
    = get_user_financial_data s db' v odt

/-- Concrete identifiers and payloads used by the witness and
counterexample theorems below. -/
def uDemo : String := "demo_user_a_b_com"

def uDemo2 : String := "demo_user_x_y_com"

def uRem : String := "u1"

def uRem2 : String := "u2"

def fileA : String := "bank_2024.csv"

def strEmpty : String := ""

def dtBudget : String := "budget"

def mapA : Mapping := [("Date", "date")]

def mapB : Mapping := [("Date", "when")]

def rowsA : List Row := [[("amt", "1")], [("amt", "2")]]

section AssocToolkit

variable {α β : Type}

theorem comp_key_eq (k : String) (v : α) :
    ∀ q : String × α,
      ((fun p => p.1 == k) ∘ fun p => if p.1 == k then (k, v) else p) q
        = (q.1 == k) := by
  intro q
  by_cases hq : q.1 = k <;> simp [hq]

theorem getKey_setKey_self (l : List (String × α)) (k : String) (v : α) :
    getKey (setKey l k v) k = some v := by
  unfold setKey getKey
  split
  · rename_i h
    rw [List.find?_map, funext (comp_key_eq k v)]
    obtain ⟨q, hmem, hq⟩ := List.any_eq_true.1 h
    have hs : (List.find? (fun p => p.1 == k) l).isSome = true :=
      List.find?_isSome.2 ⟨q, hmem, hq⟩
    obtain ⟨r, hr⟩ := Option.isSome_iff_exists.1 hs
    have hrk : r.1 = k := by
      have := List.find?_some hr
      simpa using this
    rw [hr]
    simp [hrk]
  · rename_i h
    have h2 : (l.any fun p => p.1 == k) = false := Bool.eq_false_iff.mpr h
    rw [List.find?_append]
    have hnone : List.find? (fun p => p.1 == k) l = none := by
      rw [List.find?_eq_none]
      intro x hx
      have := List.any_eq_false.1 h2 x hx
      simpa using this
    rw [hnone]
    simp

theorem getKey_setKey_ne (l : List (String × α)) (k k' : String) (v : α)
    (h : k' ≠ k) : getKey (setKey l k v) k' = getKey l k' := by
  unfold setKey getKey
  split
  · rw [List.find?_map]
    have hc : ∀ q : String × α,
        ((fun p => p.1 == k') ∘ fun p => if p.1 == k then (k, v) else p) q
          = (q.1 == k') := by
      intro q
      by_cases hq : q.1 = k
      · simp [hq, (by simpa using h.symm : (k == k') = false),
          (by simp [hq]; exact fun hh => h (hq ▸ hh.symm) : (q.1 == k') = false)]
      · simp [hq]
    rw [funext hc]
    cases hf : List.find? (fun p => p.1 == k') l with
    | none => simp
    | some q =>
      have hq : q.1 = k' := by simpa using List.find?_some hf
      have : q.1 ≠ k := by rw [hq]; exact h
      simp [this]
  · rw [List.find?_append]
    have : List.find? (fun p => p.1 == k') [(k, v)] = none := by
      simp [List.find?_cons, (by simpa using fun hh => h hh.symm : (k == k') = false)]
    rw [this]
    simp

theorem setKey_any_self (l : List (String × α)) (k : String) (v : α) :
    (setKey l k v).any (fun p => p.1 == k) = true := by
  unfold setKey
  split
  · rename_i h
    rw [List.any_map, funext (comp_key_eq k v)]
    exact h
  · simp

theorem mem_setKey_key (l : List (String × α)) (k : String) (v : α) :
    ∀ q ∈ setKey l k v, q.1 = k → q = (k, v) := by
  intro q hq hk
  unfold setKey at hq
  split at hq
  · rename_i h
    obtain ⟨p, hp, hfp⟩ := List.mem_map.1 hq
    by_cases hpk : p.1 = k
    · simp [hpk] at hfp
      exact hfp.symm
    · simp [hpk] at hfp
      exact absurd (hfp ▸ hk) hpk
  · rename_i h
    have h2 : (l.any fun p => p.1 == k) = false := Bool.eq_false_iff.mpr h
    rcases List.mem_append.1 hq with hl | hr
    · have := List.any_eq_false.1 h2 q hl
      simp [hk] at this
    · simpa using hr

theorem setKey_def (l : List (String × α)) (k : String) (v : α) :
    setKey l k v =
      if l.any (fun p => p.1 == k) then
        l.map (fun p => if p.1 == k then (k, v) else p)
      else l ++ [(k, v)] := rfl

theorem anyMap {γ δ : Type} (f : γ → δ) (l : List γ) (p : δ → Bool) :
    (l.map f).any p = l.any (p ∘ f) := by
  induction l with
  | nil => rfl
  | cons a t ih => simp [ih]

theorem setKey_idem (l : List (String × α)) (k : String) (v : α) :
    setKey (setKey l k v) k v = setKey l k v := by
  have hany := setKey_any_self l k v
  rw [setKey_def (setKey l k v), if_pos hany]
  have : ∀ q ∈ setKey l k v,
      (if q.1 == k then (k, v) else q) = q := by
    intro q hq
    by_cases hk : q.1 = k
    · rw [mem_setKey_key l k v q hq hk]
      simp
    · simp [hk]
  rw [List.map_congr_left this, List.map_id']

theorem length_setKey_of_any (l : List (String × α)) (k : String) (w : α)
    (h : l.any (fun p => p.1 == k) = true) :
    (setKey l k w).length = l.length := by
  unfold setKey
  rw [if_pos h, List.length_map]

theorem getKey_map_val (g : α → β) (l : List (String × α)) (k : String) :
    getKey (l.map (fun p => (p.1, g p.2))) k = (getKey l k).map g := by
  unfold getKey
  rw [List.find?_map]
  have hc : ∀ q : String × α,
      ((fun p => p.1 == k) ∘ fun p => (p.1, g p.2)) q = (q.1 == k) := by
    intro q; rfl
  rw [funext hc]
  cases List.find? (fun p => p.1 == k) l <;> simp

theorem setKey_map_val (g : α → β) (l : List (String × α)) (k : String)
    (v : α) :
    (setKey l k v).map (fun p => (p.1, g p.2))
      = setKey (l.map (fun p => (p.1, g p.2))) k (g v) := by
  have hany : (l.map (fun p => (p.1, g p.2))).any (fun p => p.1 == k)
      = l.any (fun p => p.1 == k) := by
    rw [anyMap]
    rfl
  unfold setKey
  rw [hany]
  split
  · rw [List.map_map, List.map_map]
    apply List.map_congr_left
    intro q _
    by_cases hk : q.1 = k <;> simp [hk]
  · rw [List.map_append]
    rfl

theorem ne_empty_of_demoMarker (uid : String)
    (h : strStartsWith uid demoMarker = true) : uid.isEmpty = false := by
  cases hb : uid.isEmpty
  · rfl
  · have he := (String.isEmpty_iff uid).1 hb
    subst he
    exact absurd h (by decide)

theorem not_demo_split (uid : String) (h : isDemoPath uid = false) :
    uid.isEmpty = false ∧ strStartsWith uid demoMarker = false := by
  unfold isDemoPath at h
  exact ⟨(Bool.or_eq_false_iff.1 h).1, (Bool.or_eq_false_iff.1 h).2⟩

end AssocToolkit

/-- Membership of the freshly assigned pair after a dictionary
assignment. -/
theorem mem_setKey_self {α : Type} (l : List (String × α)) (k : String)
    (v : α) : (k, v) ∈ setKey l k v := by
  unfold setKey
  split
  · rename_i h
    obtain ⟨q, hmem, hq⟩ := List.any_eq_true.1 h
    have hk : q.1 = k := by simpa using hq
    exact List.mem_map.2 ⟨q, hmem, by simp [hk]⟩
  · exact List.mem_append.2 (Or.inr (by simp))


/-- Reading back the user document just written. -/
theorem getUser_setUser_self (r : RemoteState) (uid : String)
    (u : RemoteUser) : getUser (setUser r uid u) uid = u := by
  unfold getUser setUser
  rw [getKey_setKey_self]
  rfl

/-- Writing one user's document leaves every other user's document
unchanged. -/
theorem getUser_setUser_ne (r : RemoteState) (uid uid' : String)
    (u : RemoteUser) (h : uid' ≠ uid) :
    getUser (setUser r uid u) uid' = getUser r uid' := by
  unfold getUser setUser
  rw [getKey_setKey_ne _ _ _ _ h]

/-- Effect of a mapping `add` on the owner's collection. -/
theorem getUser_addMappingDoc_self (r : RemoteState) (uid : String)
    (d : MappingDoc) :
    getUser (addMappingDoc r uid d) uid
      = { getUser r uid with
            mappings := (getUser r uid).mappings ++ [(autoId r.nextId, d)] } := by
  unfold addMappingDoc
  rw [show getUser { setUser r uid { getUser r uid with mappings := (getUser r uid).mappings ++ [(autoId r.nextId, d)] } with nextId := r.nextId + 1 } uid = getUser (setUser r uid { getUser r uid with mappings := (getUser r uid).mappings ++ [(autoId r.nextId, d)] }) uid from rfl]
  rw [getUser_setUser_self]

/-- C1: after `save_column_mappings`, `get_existing_mappings` with the
same identifier and file label returns the saved mapping — for every
identifier routed to the session store (demo prefix), and for
remote-routed identifiers whenever the backend is reachable and no
document for that file label already exists in the user's `mappings`
collection. -/
theorem c1_save_get_round_trip
    (s : StorageState) (db : DbStatus) (t1 t2 : Nat)
    (uid f : String) (m : Mapping)
    (h : strStartsWith uid demoMarker = true ∨
      (isDemoPath uid = false ∧ db = .ok ∧
        (getUser s.remote uid).mappings.find?
          (fun p => p.2.file_name == f) = none)) :
    (get_existing_mappings (save_column_mappings s db t1 uid f m).2
        db t2 uid f).1 = some m := by
  rcases h with hd | ⟨hnd, hdb, hfind⟩
  · have hne := ne_empty_of_demoMarker uid hd
    have hdp : isDemoPath uid = true := by
      unfold isDemoPath
      rw [hd, Bool.or_true]
    simp [save_column_mappings, get_existing_mappings, hdp, hne, hd,
      putSessionMapping, getKey_setKey_self]
  · subst hdb
    obtain ⟨hne, hnsw⟩ := not_demo_split uid hnd
    simp only [save_column_mappings, hnd, Bool.false_eq_true, if_false]
    simp only [get_existing_mappings, hne, hnsw, Bool.false_eq_true,
      if_false]
    rw [getUser_addMappingDoc_self]
    simp only [List.find?_append, hfind, Option.none_or]
    simp [saveMappingDoc]

theorem c1_witness :
    (get_existing_mappings (save_column_mappings emptyState .ok 5 uDemo
        fileA mapA).2 .ok 6 uDemo fileA).1 = some mapA :=
  c1_save_get_round_trip emptyState .ok 5 6 uDemo fileA mapA
    (Or.inl (by decide))

theorem c1_counterexample :
    (get_existing_mappings
        (save_column_mappings
          (save_column_mappings emptyState .ok 5 uRem fileA mapA).2
          .ok 6 uRem fileA mapB).2 .ok 7 uRem fileA).1 = some mapA
      ∧ mapA ≠ mapB := by
  exact ⟨by decide, by decide⟩

/-- C2 (amended): `save_column_mappings` is not an upsert for a
remote-backed user — every remote save appends a brand-new document
under a fresh auto id, so a second save with the same file label leaves
the first document in place (a duplicate insert); in the ephemeral
backend saves are idempotent overwrite-by-key. -/
theorem c2_remote_insert_ephemeral_idempotent
    (s : StorageState) (db : DbStatus) (now : Nat) (uid f : String)
    (m : Mapping) :
    (isDemoPath uid = false → db = .ok →
      (getUser (save_column_mappings s db now uid f m).2.remote uid).mappings
        = (getUser s.remote uid).mappings
            ++ [(autoId s.remote.nextId, saveMappingDoc f m now)])
    ∧ (isDemoPath uid = true →
        (save_column_mappings (save_column_mappings s db now uid f m).2
            db now uid f m).2
          = (save_column_mappings s db now uid f m).2) := by
  constructor
  · intro hnd hdb
    subst hdb
    simp only [save_column_mappings, hnd, Bool.false_eq_true, if_false]
    rw [getUser_addMappingDoc_self]
  · intro hd
    simp only [save_column_mappings, hd, if_true]
    simp [putSessionMapping, setKey_idem]

theorem c2_counterexample :
    (getUser (save_column_mappings
        (save_column_mappings emptyState .ok 5 uRem fileA mapA).2
        .ok 6 uRem fileA mapA).2.remote uRem).mappings.length = 2 := by
  decide

theorem c2_witness :
    (getUser (save_column_mappings emptyState .ok 5 uRem fileA
        mapA).2.remote uRem).mappings
      = (getUser emptyState.remote uRem).mappings
          ++ [(autoId emptyState.remote.nextId, saveMappingDoc fileA mapA 5)] :=
  (c2_remote_insert_ephemeral_idempotent emptyState .ok 5 uRem fileA
    mapA).1 (by decide) rfl


theorem eraseStampsUser_append (u : RemoteUser) (k : String)
    (d : MappingDoc) :
    eraseStampsUser { u with mappings := u.mappings ++ [(k, d)] }
      = { eraseStampsUser u with
            mappings := (eraseStampsUser u).mappings ++ [(k, eraseStamps d)] } := by
  simp [eraseStampsUser, List.map_append]

theorem eraseStampsRemote_add_congr (r : RemoteState) (uid : String)
    (d1 d2 : MappingDoc) (h : eraseStamps d1 = eraseStamps d2) :
    eraseStampsRemote (addMappingDoc r uid d1)
      = eraseStampsRemote (addMappingDoc r uid d2) := by
  unfold addMappingDoc eraseStampsRemote setUser
  simp only [setKey_map_val]
  congr 2
  rw [eraseStampsUser_append, eraseStampsUser_append, h]

/-- C3 (amended): when no prior mapping document exists for the file
label, `update_column_mappings` behaves like `save_column_mappings`: the
return values agree, the session stores agree, and the remote stores
agree up to the timestamp bookkeeping of the created document — the
document created by update carries `updated_at` (and no `created_at`)
where the one created by save carries `created_at` (and no
`updated_at`). -/
theorem c3_update_is_save_when_absent
    (s : StorageState) (db : DbStatus) (now : Nat) (uid f : String)
    (m : Mapping)
    (h : (getUser s.remote uid).mappings.find?
      (fun p => p.2.file_name == f) = none) :
    (update_column_mappings s db now uid f m).1
        = (save_column_mappings s db now uid f m).1
      ∧ (update_column_mappings s db now uid f m).2.session
        = (save_column_mappings s db now uid f m).2.session
      ∧ eraseStampsRemote (update_column_mappings s db now uid f m).2.remote
        = eraseStampsRemote (save_column_mappings s db now uid f m).2.remote := by
  by_cases hd : isDemoPath uid
  · simp [update_column_mappings, save_column_mappings, hd]
  · have hnd : isDemoPath uid = false := by
      cases hx : isDemoPath uid
      · rfl
      · exact absurd hx hd
    cases db with
    | unavailable =>
        simp [update_column_mappings, save_column_mappings, hnd]
    | throws =>
        simp [update_column_mappings, save_column_mappings, hnd]
    | ok =>
        simp only [update_column_mappings, save_column_mappings, hnd,
          Bool.false_eq_true, if_false]
        rw [h]
        refine ⟨rfl, rfl, ?_⟩
        exact eraseStampsRemote_add_congr s.remote uid _ _ rfl

theorem c3_counterexample :
    (update_column_mappings emptyState .ok 5 uRem fileA mapA).1
        = (save_column_mappings emptyState .ok 5 uRem fileA mapA).1
      ∧ (update_column_mappings emptyState .ok 5 uRem fileA mapA).2
        ≠ (save_column_mappings emptyState .ok 5 uRem fileA mapA).2 :=
  ⟨by decide, by decide⟩

theorem c3_witness :
    (update_column_mappings emptyState .ok 5 uRem fileA mapA).1
        = (save_column_mappings emptyState .ok 5 uRem fileA mapA).1
      ∧ (update_column_mappings emptyState .ok 5 uRem fileA mapA).2.session
        = (save_column_mappings emptyState .ok 5 uRem fileA mapA).2.session
      ∧ eraseStampsRemote
          (update_column_mappings emptyState .ok 5 uRem fileA mapA).2.remote
        = eraseStampsRemote
          (save_column_mappings emptyState .ok 5 uRem fileA mapA).2.remote :=
  c3_update_is_save_when_absent emptyState .ok 5 uRem fileA mapA (by decide)


/-- Demo-branch normal form of `save_column_mappings`. -/
theorem save_column_mappings_demo (s : StorageState) (db : DbStatus)
    (t : Nat) (uid f : String) (m : Mapping) (h : isDemoPath uid = true) :
    save_column_mappings s db t uid f m
      = (true, putSessionMapping s f ⟨m, isoformat t⟩) := by
  simp [save_column_mappings, h]

/-- Demo-branch normal form of `update_column_mappings`. -/
theorem update_column_mappings_demo (s : StorageState) (db : DbStatus)
    (t : Nat) (uid f : String) (m : Mapping) (h : isDemoPath uid = true) :
    update_column_mappings s db t uid f m
      = (true, putSessionMapping s f ⟨m, isoformat t⟩) := by
  simp [update_column_mappings, h]

/-- Demo-branch normal form of `save_financial_data`. -/
theorem save_financial_data_demo (s : StorageState) (db : DbStatus)
    (t : Nat) (uid dt : String) (rows : List Row)
    (h : isDemoPath uid = true) :
    save_financial_data s db t uid dt rows
      = ((true, some (demoFinId dt t)),
         putSessionFin s (demoFinId dt t) (demoFinRecord dt rows t)) := by
  simp [save_financial_data, h]

/-- Demo-branch normal form of `get_existing_mappings`. -/
theorem get_existing_mappings_demo (s : StorageState) (db : DbStatus)
    (t : Nat) (uid f : String) (hne : uid.isEmpty = false)
    (h : strStartsWith uid demoMarker = true) :
    get_existing_mappings s db t uid f
      = ((getKey s.session.saved_mappings f).map SessionMapping.mappings,
         s) := by
  simp only [get_existing_mappings, hne, Bool.false_eq_true, if_false, h,
    if_true]
  cases getKey s.session.saved_mappings f <;> simp

/-- Demo-branch normal form of `get_user_financial_data`. -/
theorem get_user_financial_data_demo (s : StorageState) (db : DbStatus)
    (uid : String) (odt : Option String) (hne : uid.isEmpty = false)
    (h : strStartsWith uid demoMarker = true) :
    get_user_financial_data s db uid odt
      = match odt with
        | some dt =>
            if dt.isEmpty then s.session.saved_financial_data
            else s.session.saved_financial_data.filter
              (fun p => p.2.type == dt)
        | none => s.session.saved_financial_data := by
  simp [get_user_financial_data, hne, h]

/-- Non-demo identifiers never write the session store:
`save_column_mappings`. -/
theorem save_column_mappings_session (s : StorageState) (db : DbStatus)
    (t : Nat) (uid f : String) (m : Mapping) (h : isDemoPath uid = false) :
    (save_column_mappings s db t uid f m).2.session = s.session := by
  cases db <;> simp [save_column_mappings, h]

/-- Non-demo identifiers never write the session store:
`update_column_mappings`. -/
theorem update_column_mappings_session (s : StorageState) (db : DbStatus)
    (t : Nat) (uid f : String) (m : Mapping) (h : isDemoPath uid = false) :
    (update_column_mappings s db t uid f m).2.session = s.session := by
  cases db with
  | ok =>
      simp only [update_column_mappings, h, Bool.false_eq_true, if_false]
      split <;> rfl
  | unavailable => simp [update_column_mappings, h]
  | throws => simp [update_column_mappings, h]

/-- Non-demo identifiers never write the session store:
`save_financial_data`. -/
theorem save_financial_data_session (s : StorageState) (db : DbStatus)
    (t : Nat) (uid dt : String) (rows : List Row)
    (h : isDemoPath uid = false) :
    (save_financial_data s db t uid dt rows).2.session = s.session := by
  cases db <;> simp [save_financial_data, h]


/-- C4: a user identifier bearing the `demo_user_` prefix is routed to
the in-memory session store by every operation and never reaches the
remote backend — the result and resulting session store are independent
of the remote state and of the backend status, and the remote state
passes through unchanged; conversely a nonempty identifier without the
prefix never writes the session store, so the per-call string check is
the sole dispatch mechanism. -/
theorem c4_demo_prefix_dispatch
    (sess : SessionState) (rem rem' : RemoteState) (db db' : DbStatus)
    (t1 t2 : Nat) (uid uid' f : String) (m : Mapping) (dt : String)
    (rows : List Row) (odt : Option String) (s' : StorageState)
    (h : strStartsWith uid demoMarker = true)
    (h1 : strStartsWith uid' demoMarker = false)
    (h2 : uid'.isEmpty = false) :
    DemoDispatch sess rem rem' db db' t1 t2 uid uid' f m dt rows odt s' := by
  have hne := ne_empty_of_demoMarker uid h
  have hdp : isDemoPath uid = true := by
    unfold isDemoPath
    rw [h, Bool.or_true]
  have hnd : isDemoPath uid' = false := by
    unfold isDemoPath
    rw [h1, h2, Bool.or_false]
  unfold DemoDispatch
  rw [save_column_mappings_demo _ db _ _ _ _ hdp,
    save_column_mappings_demo _ db' _ _ _ _ hdp,
    update_column_mappings_demo _ db _ _ _ _ hdp,
    update_column_mappings_demo _ db' _ _ _ _ hdp,
    save_financial_data_demo _ db _ _ _ _ hdp,
    save_financial_data_demo _ db' _ _ _ _ hdp,
    get_existing_mappings_demo _ db _ _ _ hne h,
    get_existing_mappings_demo _ db' _ _ _ hne h,
    get_user_financial_data_demo _ db _ _ hne h,
    get_user_financial_data_demo _ db' _ _ hne h,
    save_column_mappings_session s' db t1 uid' f m hnd,
    update_column_mappings_session s' db t1 uid' f m hnd,
    save_financial_data_session s' db t1 uid' dt rows hnd]
  simp [putSessionMapping, putSessionFin]

theorem c4_witness :
    DemoDispatch emptySession emptyRemote ⟨[], 3⟩ .ok .throws 5 6 uDemo
      uRem fileA mapA dtBudget rowsA none emptyState :=
  c4_demo_prefix_dispatch emptySession emptyRemote ⟨[], 3⟩ .ok .throws 5 6
    uDemo uRem fileA mapA dtBudget rowsA none emptyState
    (by decide) (by decide) (by decide)

/-- Effect of a financial-data `add` on the owner's collection. -/
theorem getUser_addFinDoc_self (r : RemoteState) (uid : String)
    (d : FinRecord) :
    getUser (addFinDoc r uid d).2 uid
      = { getUser r uid with
            financial_data :=
              (getUser r uid).financial_data ++ [(autoId r.nextId, d)] } := by
  unfold addFinDoc
  rw [show getUser { setUser r uid { getUser r uid with financial_data := (getUser r uid).financial_data ++ [(autoId r.nextId, d)] } with nextId := r.nextId + 1 } uid = getUser (setUser r uid { getUser r uid with financial_data := (getUser r uid).financial_data ++ [(autoId r.nextId, d)] }) uid from rfl]
  rw [getUser_setUser_self]

/-- C5: `save_financial_data` for a remote-routed identifier retains
every prior record unchanged (the prior collection is a prefix of the
new one) and, when the backend call succeeds, appends exactly one
record with `row_count` under the fresh backend-generated id; for a
session-routed identifier the returned id is the data type followed by
the second-precision timestamp, so a second save with the same data
type and the same second overwrites the first record in place, adding
no new entry. -/
theorem c5_append_only_and_demo_collision
    (s : StorageState) (db : DbStatus) (now : Nat) (uid dt : String)
    (rows rows2 : List Row) :
    (isDemoPath uid = false →
      (∃ tl,
        (getUser (save_financial_data s db now uid dt
          rows).2.remote uid).financial_data
          = (getUser s.remote uid).financial_data ++ tl)
      ∧ (db = .ok →
          (save_financial_data s db now uid dt rows).1
            = (true, some (autoId s.remote.nextId))
          ∧ (getUser (save_financial_data s db now uid dt
              rows).2.remote uid).financial_data
            = (getUser s.remote uid).financial_data
                ++ [(autoId s.remote.nextId, remoteFinRecord dt rows now)]))
    ∧ (isDemoPath uid = true →
        (save_financial_data s db now uid dt rows).1
          = (true, some (demoFinId dt now))
        ∧ (save_financial_data (save_financial_data s db now uid dt
            rows).2 db now uid dt rows2).1
          = (true, some (demoFinId dt now))
        ∧ getKey (save_financial_data (save_financial_data s db now uid dt
            rows).2 db now uid dt rows2).2.session.saved_financial_data
            (demoFinId dt now)
          = some (demoFinRecord dt rows2 now)
        ∧ (save_financial_data (save_financial_data s db now uid dt
            rows).2 db now uid dt rows2).2.session.saved_financial_data.length
          = (save_financial_data s db now uid dt
            rows).2.session.saved_financial_data.length) := by
  constructor
  · intro hnd
    cases db with
    | ok =>
        constructor
        · simp only [save_financial_data, hnd, Bool.false_eq_true, if_false]
          rw [getUser_addFinDoc_self]
          exact ⟨_, rfl⟩
        · intro _
          constructor
          · simp [save_financial_data, hnd, addFinDoc]
          · simp only [save_financial_data, hnd, Bool.false_eq_true,
              if_false]
            rw [getUser_addFinDoc_self]
    | unavailable =>
        refine ⟨⟨[], ?_⟩, by intro h; exact absurd h (by decide)⟩
        simp [save_financial_data, hnd]
    | throws =>
        refine ⟨⟨[], ?_⟩, by intro h; exact absurd h (by decide)⟩
        simp [save_financial_data, hnd]
  · intro hd
    rw [save_financial_data_demo _ _ _ _ _ _ hd,
      save_financial_data_demo _ _ _ _ _ _ hd]
    refine ⟨rfl, rfl, ?_, ?_⟩
    · simp [putSessionFin, getKey_setKey_self]
    · simp only [putSessionFin]
      exact length_setKey_of_any _ _ _ (setKey_any_self _ _ _)

theorem c5_witness :
    ((save_financial_data emptyState .ok 5 uRem dtBudget rowsA).1
        = (true, some (autoId emptyState.remote.nextId))
      ∧ (getUser (save_financial_data emptyState .ok 5 uRem dtBudget
          rowsA).2.remote uRem).financial_data
        = (getUser emptyState.remote uRem).financial_data
            ++ [(autoId emptyState.remote.nextId,
                remoteFinRecord dtBudget rowsA 5)])
    ∧ getKey (save_financial_data (save_financial_data emptyState .throws
        7 uDemo dtBudget rowsA).2 .throws 7 uDemo dtBudget
        []).2.session.saved_financial_data (demoFinId dtBudget 7)
      = some (demoFinRecord dtBudget [] 7) :=
  ⟨((c5_append_only_and_demo_collision emptyState .ok 5 uRem dtBudget
      rowsA []).1 (by decide)).2 rfl,
   ((c5_append_only_and_demo_collision emptyState .throws 7 uDemo dtBudget
      rowsA []).2 (by decide)).2.2.1⟩

/-- C6 (amended): the filtered read is a sublist of the unfiltered read;
for a nonempty data type the filtered result contains only records of
that type; an empty-string data type is falsy in the source and is
treated as no filter; and a user with no data gets the empty mapping. -/
theorem c6_filter_is_restriction
    (s : StorageState) (db : DbStatus) (uid dt : String)
    (odt : Option String) :
    List.Sublist (get_user_financial_data s db uid (some dt))
        (get_user_financial_data s db uid none)
    ∧ (dt ≠ strEmpty →
        (get_user_financial_data s db uid (some dt)).all
          (fun p => p.2.type == dt) = true)
    ∧ (get_user_financial_data s db uid (some strEmpty)
        = get_user_financial_data s db uid none)
    ∧ (s.session.saved_financial_data = [] →
        (getUser s.remote uid).financial_data = [] →
        get_user_financial_data s db uid odt = []) := by
  refine ⟨?_, ?_, ?_, ?_⟩
  · cases he : uid.isEmpty with
    | true => simp [get_user_financial_data, he]
    | false =>
      cases hsw : strStartsWith uid demoMarker with
      | true =>
          cases hdt : dt.isEmpty <;>
            simp [get_user_financial_data, he, hsw, hdt,
              List.filter_sublist, List.Sublist.refl]
      | false =>
          cases db <;> cases hdt : dt.isEmpty <;>
            simp [get_user_financial_data, he, hsw, hdt,
              List.filter_sublist, List.Sublist.refl]
  · intro hdt
    have hdt' : dt.isEmpty = false := by
      cases hq : dt.isEmpty
      · rfl
      · exact absurd ((String.isEmpty_iff dt).1 hq) hdt
    cases he : uid.isEmpty with
    | true => simp [get_user_financial_data, he]
    | false =>
      cases hsw : strStartsWith uid demoMarker with
      | true =>
          simp [get_user_financial_data, he, hsw, hdt',
            List.all_eq_true, List.mem_filter]
      | false =>
          cases db <;>
            simp [get_user_financial_data, he, hsw, hdt',
              List.all_eq_true, List.mem_filter]
  · have hemp : strEmpty.isEmpty = true := by decide
    cases he : uid.isEmpty with
    | true => simp [get_user_financial_data, he]
    | false =>
      cases hsw : strStartsWith uid demoMarker with
      | true => simp [get_user_financial_data, he, hsw, hemp]
      | false => cases db <;> simp [get_user_financial_data, he, hsw, hemp]
  · intro hsess hrem
    cases he : uid.isEmpty with
    | true => simp [get_user_financial_data, he]
    | false =>
      cases hsw : strStartsWith uid demoMarker with
      | true =>
          cases odt with
          | none => simp [get_user_financial_data, he, hsw, hsess]
          | some dt2 =>
              cases hdt : dt2.isEmpty <;>
                simp [get_user_financial_data, he, hsw, hdt, hsess]
      | false =>
          cases db <;> cases odt with
          | none => simp [get_user_financial_data, he, hsw, hrem]
          | some dt2 =>
              cases hdt : dt2.isEmpty <;>
                simp [get_user_financial_data, he, hsw, hdt, hrem]

theorem c6_counterexample :
    ((get_user_financial_data
        (save_financial_data emptyState .throws 7 uDemo dtBudget rowsA).2
        .throws uDemo (some strEmpty)).map (fun p => p.2.type)
      = [dtBudget])
    ∧ dtBudget ≠ strEmpty :=
  ⟨by decide, by decide⟩

theorem c6_witness :
    ((get_user_financial_data
        (save_financial_data emptyState .throws 7 uDemo dtBudget rowsA).2
        .throws uDemo (some dtBudget)).all
      (fun p => p.2.type == dtBudget) = true)
    ∧ get_user_financial_data emptyState .ok uRem none = [] :=
  ⟨(c6_filter_is_restriction
      (save_financial_data emptyState .throws 7 uDemo dtBudget rowsA).2
      .throws uDemo dtBudget none).2.1 (by decide),
   (c6_filter_is_restriction emptyState .ok uRem dtBudget
      none).2.2.2 rfl rfl⟩

/-- C7: for a remote-routed identifier, when the backend is
unavailable (`get_db()` returned `None`) or the backend call raises,
every operation returns its declared failure shape — `false`, `None`,
`false`, `(false, None)`, `{}` respectively — and leaves the state
untouched.  (In this embedding every operation is a total function:
the `try/except` blocks of the source are modelled by `DbStatus.throws`,
so no exception can escape to the caller.) -/
theorem c7_failure_shapes
    (s : StorageState) (db : DbStatus) (t1 t2 : Nat) (uid f dt : String)
    (m : Mapping) (rows : List Row) (odt : Option String)
    (hu : isDemoPath uid = false) (hdb : db ≠ .ok) :
    save_column_mappings s db t1 uid f m = (false, s)
    ∧ get_existing_mappings s db t2 uid f = (none, s)
    ∧ update_column_mappings s db t1 uid f m = (false, s)
    ∧ save_financial_data s db t1 uid dt rows = ((false, none), s)
    ∧ get_user_financial_data s db uid odt = [] := by
  obtain ⟨hne, hnsw⟩ := not_demo_split uid hu
  cases db with
  | ok => exact absurd rfl hdb
  | unavailable =>
      simp [save_column_mappings, get_existing_mappings,
        update_column_mappings, save_financial_data,
        get_user_financial_data, hu, hne, hnsw]
  | throws =>
      simp [save_column_mappings, get_existing_mappings,
        update_column_mappings, save_financial_data,
        get_user_financial_data, hu, hne, hnsw]

theorem c7_witness :
    save_column_mappings emptyState .unavailable 5 uRem fileA mapA
        = (false, emptyState)
    ∧ get_existing_mappings emptyState .unavailable 6 uRem fileA
        = (none, emptyState)
    ∧ update_column_mappings emptyState .unavailable 5 uRem fileA mapA
        = (false, emptyState)
    ∧ save_financial_data emptyState .unavailable 5 uRem dtBudget rowsA
        = ((false, none), emptyState)
    ∧ get_user_financial_data emptyState .unavailable uRem none = [] :=
  c7_failure_shapes emptyState .unavailable 5 6 uRem fileA dtBudget mapA
    rowsA none (by decide) (by decide)

/-- C8 (amended): from any state, the demo save returns
`(true, "budget_<timestamp>")` and the immediate filtered read contains
that record id; the stored record carries the saved rows (so its data
length equals the number of rows saved) but no `row_count` key — the
demo path of `save_financial_data` stores only `type`, `data` and
`created_at`. -/
theorem c8_demo_save_get_scenario
    (s : StorageState) (db : DbStatus) (now : Nat) (rows : List Row) :
    (save_financial_data s db now uDemo dtBudget rows).1
      = (true, some (demoFinId dtBudget now))
    ∧ (demoFinId dtBudget now, demoFinRecord dtBudget rows now)
        ∈ get_user_financial_data
            (save_financial_data s db now uDemo dtBudget rows).2
            db uDemo (some dtBudget)
    ∧ (demoFinRecord dtBudget rows now).data.length = rows.length
    ∧ (demoFinRecord dtBudget rows now).row_count = none := by
  have hdp : isDemoPath uDemo = true := by decide
  have hne : uDemo.isEmpty = false := by decide
  have hsw : strStartsWith uDemo demoMarker = true := by decide
  rw [save_financial_data_demo _ _ _ _ _ _ hdp]
  refine ⟨rfl, ?_, rfl, rfl⟩
  rw [get_user_financial_data_demo _ _ _ _ hne hsw]
  have hdt : dtBudget.isEmpty = false := by decide
  simp only [hdt, Bool.false_eq_true, if_false]
  rw [List.mem_filter]
  refine ⟨?_, rfl⟩
  simp only [putSessionFin]
  exact mem_setKey_self _ _ _

theorem c8_counterexample :
    (getKey (get_user_financial_data
        (save_financial_data emptyState .throws 7 uDemo dtBudget rowsA).2
        .throws uDemo (some dtBudget))
        (demoFinId dtBudget 7)).map FinRecord.row_count
      = some none
    ∧ rowsA.length = 2 :=
  ⟨by decide, by decide⟩

/-- C9 (amended): an empty user identifier routes every write to the
session store (the write succeeds and the remote state is untouched),
while both read operations return their empty result immediately,
without consulting either store. -/
theorem c9_empty_identifier
    (s : StorageState) (db : DbStatus) (t1 t2 : Nat) (f dt : String)
    (m : Mapping) (rows : List Row) (odt : Option String) :
    (save_column_mappings s db t1 strEmpty f m).1 = true
    ∧ (save_column_mappings s db t1 strEmpty f m).2.remote = s.remote
    ∧ getKey (save_column_mappings s db t1 strEmpty f
        m).2.session.saved_mappings f = some ⟨m, isoformat t1⟩
    ∧ (update_column_mappings s db t1 strEmpty f m).1 = true
    ∧ (update_column_mappings s db t1 strEmpty f m).2.remote = s.remote
    ∧ getKey (update_column_mappings s db t1 strEmpty f
        m).2.session.saved_mappings f = some ⟨m, isoformat t1⟩
    ∧ (save_financial_data s db t1 strEmpty dt rows).1
        = (true, some (demoFinId dt t1))
    ∧ (save_financial_data s db t1 strEmpty dt rows).2.remote = s.remote
    ∧ getKey (save_financial_data s db t1 strEmpty dt
        rows).2.session.saved_financial_data (demoFinId dt t1)
        = some (demoFinRecord dt rows t1)
    ∧ get_existing_mappings s db t2 strEmpty f = (none, s)
    ∧ get_user_financial_data s db strEmpty odt = [] := by
  have hdp : isDemoPath strEmpty = true := by decide
  rw [save_column_mappings_demo _ _ _ _ _ _ hdp,
    update_column_mappings_demo _ _ _ _ _ _ hdp,
    save_financial_data_demo _ _ _ _ _ _ hdp]
  have hemp : strEmpty.isEmpty = true := by decide
  refine ⟨rfl, rfl, ?_, rfl, rfl, ?_, rfl, rfl, ?_, ?_, ?_⟩
  · simp [putSessionMapping, getKey_setKey_self]
  · simp [putSessionMapping, getKey_setKey_self]
  · simp [putSessionFin, getKey_setKey_self]
  · simp [get_existing_mappings, hemp]
  · simp [get_user_financial_data, hemp]

theorem c9_counterexample :
    (save_column_mappings emptyState .ok 5 strEmpty fileA mapA).1 = true
    ∧ getKey (save_column_mappings emptyState .ok 5 strEmpty fileA
        mapA).2.session.saved_mappings fileA = some ⟨mapA, isoformat 5⟩
    ∧ (get_existing_mappings
        (save_column_mappings emptyState .ok 5 strEmpty fileA mapA).2
        .ok 6 strEmpty fileA).1 = none :=
  ⟨by decide, by decide, by decide⟩

/-- For a session-routed reader the mapping-read result depends only on
the session store. -/
theorem get_existing_mappings_fst_session_congr
    (s s' : StorageState) (db db' : DbStatus) (t t' : Nat) (v g : String)
    (hv : isDemoPath v = true) (hsess : s.session = s'.session) :
    (get_existing_mappings s db t v g).1
      = (get_existing_mappings s' db' t' v g).1 := by
  cases he : v.isEmpty with
  | true => simp [get_existing_mappings, he]
  | false =>
      have hsw : strStartsWith v demoMarker = true := by
        unfold isDemoPath at hv
        rw [he] at hv
        simpa using hv
      rw [get_existing_mappings_demo _ _ _ _ _ he hsw,
        get_existing_mappings_demo _ _ _ _ _ he hsw, hsess]

/-- For a remote-routed reader the mapping-read result depends only on
that reader's own remote document. -/
theorem get_existing_mappings_fst_remote_congr
    (s s' : StorageState) (db : DbStatus) (t t' : Nat) (v g : String)
    (hv : isDemoPath v = false)
    (hrem : getUser s.remote v = getUser s'.remote v) :
    (get_existing_mappings s db t v g).1
      = (get_existing_mappings s' db t' v g).1 := by
  obtain ⟨he, hsw⟩ := not_demo_split v hv
  cases db with
  | unavailable => simp [get_existing_mappings, he, hsw]
  | throws => simp [get_existing_mappings, he, hsw]
  | ok =>
      simp only [get_existing_mappings, he, hsw, Bool.false_eq_true,
        if_false]
      rw [hrem]
      cases hf : (getUser s'.remote v).mappings.find?
          (fun p => p.2.file_name == g) <;> simp [hf]

/-- For a session-routed reader the financial-data read depends only on
the session store. -/
theorem get_user_financial_data_session_congr
    (s s' : StorageState) (db db' : DbStatus) (v : String)
    (odt : Option String) (hv : isDemoPath v = true)
    (hsess : s.session = s'.session) :
    get_user_financial_data s db v odt
      = get_user_financial_data s' db' v odt := by
  cases he : v.isEmpty with
  | true => simp [get_user_financial_data, he]
  | false =>
      have hsw : strStartsWith v demoMarker = true := by
        unfold isDemoPath at hv
        rw [he] at hv
        simpa using hv
      rw [get_user_financial_data_demo _ _ _ _ he hsw,
        get_user_financial_data_demo _ _ _ _ he hsw, hsess]

/-- For a remote-routed reader the financial-data read depends only on
that reader's own remote document. -/
theorem get_user_financial_data_remote_congr
    (s s' : StorageState) (db : DbStatus) (v : String)
    (odt : Option String) (hv : isDemoPath v = false)
    (hrem : getUser s.remote v = getUser s'.remote v) :
    get_user_financial_data s db v odt
      = get_user_financial_data s' db v odt := by
  obtain ⟨he, hsw⟩ := not_demo_split v hv
  cases db with
  | unavailable => simp [get_user_financial_data, he, hsw]
  | throws => simp [get_user_financial_data, he, hsw]
  | ok =>
      simp only [get_user_financial_data, he, hsw, Bool.false_eq_true,
        if_false]
      rw [hrem]

/-- A mapping `add` under one user leaves every other user's document
unchanged. -/
theorem getUser_addMappingDoc_ne (r : RemoteState) (u v : String)
    (d : MappingDoc) (h : v ≠ u) :
    getUser (addMappingDoc r u d) v = getUser r v := by
  simp [addMappingDoc, getUser, setUser, getKey_setKey_ne _ _ _ _ h]

/-- A financial-data `add` under one user leaves every other user's
document unchanged. -/
theorem getUser_addFinDoc_ne (r : RemoteState) (u v : String)
    (d : FinRecord) (h : v ≠ u) :
    getUser (addFinDoc r u d).2 v = getUser r v := by
  simp [addFinDoc, getUser, setUser, getKey_setKey_ne _ _ _ _ h]

theorem getUser_after_save_column_mappings (s : StorageState)
    (db : DbStatus) (t : Nat) (u v f : String) (m : Mapping)
    (hvu : v ≠ u) :
    getUser (save_column_mappings s db t u f m).2.remote v
      = getUser s.remote v := by
  by_cases hd : isDemoPath u = true
  · rw [save_column_mappings_demo _ _ _ _ _ _ hd]
    rfl
  · have hnd : isDemoPath u = false := Bool.eq_false_iff.mpr hd
    cases db with
    | unavailable => simp [save_column_mappings, hnd]
    | throws => simp [save_column_mappings, hnd]
    | ok =>
        simp only [save_column_mappings, hnd, Bool.false_eq_true, if_false]
        exact getUser_addMappingDoc_ne _ _ _ _ hvu

theorem getUser_after_update_column_mappings (s : StorageState)
    (db : DbStatus) (t : Nat) (u v f : String) (m : Mapping)
    (hvu : v ≠ u) :
    getUser (update_column_mappings s db t u f m).2.remote v
      = getUser s.remote v := by
  by_cases hd : isDemoPath u = true
  · rw [update_column_mappings_demo _ _ _ _ _ _ hd]
    rfl
  · have hnd : isDemoPath u = false := Bool.eq_false_iff.mpr hd
    cases db with
    | unavailable => simp [update_column_mappings, hnd]
    | throws => simp [update_column_mappings, hnd]
    | ok =>
        simp only [update_column_mappings, hnd, Bool.false_eq_true,
          if_false]
        cases hf : (getUser s.remote u).mappings.find?
            (fun p => p.2.file_name == f) with
        | some p =>
            simp only [hf]
            exact getUser_setUser_ne _ _ _ _ hvu
        | none =>
            simp only [hf]
            exact getUser_addMappingDoc_ne _ _ _ _ hvu

theorem getUser_after_save_financial_data (s : StorageState)
    (db : DbStatus) (t : Nat) (u v dt : String) (rows : List Row)
    (hvu : v ≠ u) :
    getUser (save_financial_data s db t u dt rows).2.remote v
      = getUser s.remote v := by
  by_cases hd : isDemoPath u = true
  · rw [save_financial_data_demo _ _ _ _ _ _ hd]
    rfl
  · have hnd : isDemoPath u = false := Bool.eq_false_iff.mpr hd
    cases db with
    | unavailable => simp [save_financial_data, hnd]
    | throws => simp [save_financial_data, hnd]
    | ok =>
        simp only [save_financial_data, hnd, Bool.false_eq_true, if_false]
        exact getUser_addFinDoc_ne _ _ _ _ hvu

/-- C10 (amended): documents written under one user identifier are
never returned by reads under a different identifier, provided the two
identifiers are not both routed to the session store: remote documents
live under `users/{userId}` and session-routed identifiers never touch
them, while all session-routed identifiers (empty or demo-prefixed)
share the one session-scoped store. -/
theorem c10_owner_isolation
    (s : StorageState) (db db' : DbStatus) (t1 t2 : Nat)
    (u v f g dt : String) (m : Mapping) (rows : List Row)
    (odt : Option String) (hvu : v ≠ u)
    (h : isDemoPath u = false ∨ isDemoPath v = false) :
    NoCrossUserRead s db db' t1 t2 u v f g dt m rows odt := by
  unfold NoCrossUserRead
  cases hv : isDemoPath v with
  | false =>
      exact ⟨get_existing_mappings_fst_remote_congr _ _ _ _ _ _ _ hv
          (getUser_after_save_column_mappings s db t1 u v f m hvu),
        get_existing_mappings_fst_remote_congr _ _ _ _ _ _ _ hv
          (getUser_after_update_column_mappings s db t1 u v f m hvu),
        get_existing_mappings_fst_remote_congr _ _ _ _ _ _ _ hv
          (getUser_after_save_financial_data s db t1 u v dt rows hvu),
        get_user_financial_data_remote_congr _ _ _ _ _ hv
          (getUser_after_save_column_mappings s db t1 u v f m hvu),
        get_user_financial_data_remote_congr _ _ _ _ _ hv
          (getUser_after_update_column_mappings s db t1 u v f m hvu),
        get_user_financial_data_remote_congr _ _ _ _ _ hv
          (getUser_after_save_financial_data s db t1 u v dt rows hvu)⟩
  | true =>
      have hu : isDemoPath u = false := by
        rcases h with h | h
        · exact h
        · rw [hv] at h
          cases h
      exact ⟨get_existing_mappings_fst_session_congr _ _ _ _ _ _ _ _ hv
          (save_column_mappings_session s db t1 u f m hu),
        get_existing_mappings_fst_session_congr _ _ _ _ _ _ _ _ hv
          (update_column_mappings_session s db t1 u f m hu),
        get_existing_mappings_fst_session_congr _ _ _ _ _ _ _ _ hv
          (save_financial_data_session s db t1 u dt rows hu),
        get_user_financial_data_session_congr _ _ _ _ _ _ hv
          (save_column_mappings_session s db t1 u f m hu),
        get_user_financial_data_session_congr _ _ _ _ _ _ hv
          (update_column_mappings_session s db t1 u f m hu),
        get_user_financial_data_session_congr _ _ _ _ _ _ hv
          (save_financial_data_session s db t1 u dt rows hu)⟩

theorem c10_witness :
    NoCrossUserRead (save_column_mappings emptyState .ok 5 uRem fileA
      mapA).2 .ok .ok 6 7 uRem uRem2 fileA fileA dtBudget mapB rowsA
      none :=
  c10_owner_isolation _ .ok .ok 6 7 uRem uRem2 fileA fileA dtBudget mapB
    rowsA none (by decide) (Or.inl (by decide))

theorem c10_counterexample :
    (get_existing_mappings
        (save_column_mappings emptyState .throws 5 uDemo fileA mapA).2
        .throws 6 uDemo2 fileA).1 = some mapA
    ∧ uDemo ≠ uDemo2 :=
  ⟨by decide, by decide⟩
